import Mathlib

/- The Batteries rational-number operations are sealed by default; open
   them up so that concrete executions of the embedded program reduce. -/
unseal Rat.mul Rat.add Rat.sub Rat.inv

/- Shallow embedding of the Recurring_vs_New_Customer repository
   (src/utils.py, src/services.py, src/models.py, src/api.py).
   Python floats are modelled as exact rationals; the external oracles
   (DeepFace detection and embedding, cv2 image decoding) appear as
   explicit data and function parameters. -/

namespace RVN

def emptyStr : String := ""

/- utils.py constants (lines 11-15). -/

def MODEL_NAME : String := "Facenet512"

def CUSTOMER_DIR : String := "known_faces"

def FAISS_INDEX_PATH : String := "customer_index.faiss"

/- utils.py line 15: THRESHOLD = 0.7 (cosine similarity threshold). -/
def THRESHOLD : ℚ := 7 / 10

/- An embedding vector, and the FAISS index as the ordered list of the
   vectors added to it (insertion order = 0-based rank). -/
abbrev Emb := List ℚ

abbrev SIndex := List Emb

inductive LoadError where
  | indexNotFound
deriving DecidableEq

/- utils.py load_or_create_index (lines 24-32): raises FileNotFoundError
   when no file exists at FAISS_INDEX_PATH, otherwise reads the persisted
   index.  The filesystem is modelled as the optional contents of that
   path. -/
def load_or_create_index (fileAtPath : Option SIndex) : Except LoadError SIndex :=
  match fileAtPath with
  | none => Except.error LoadError.indexNotFound
  | some idx => Except.ok idx

/- DeepFace.extract_faces returns one dict per detection;
   face.get("facial_area", {}) is a dict whose keys the code reads with
   defaults.  A key that is absent is `none`; a detection whose
   facial_area is missing or empty is the all-none value. -/
structure FacialArea where
  x : Option Int
  y : Option Int
  w : Option Int
  h : Option Int
  left_eye : Option (ℚ × ℚ)
  right_eye : Option (ℚ × ℚ)
  nose : Option (ℚ × ℚ)
deriving DecidableEq

/- Python truthiness of the facial_area dict: nonempty iff any key is
   present. -/
def FacialArea.nonemptyDict (fa : FacialArea) : Bool :=
  fa.x.isSome || fa.y.isSome || fa.w.isSome || fa.h.isSome ||
  fa.left_eye.isSome || fa.right_eye.isSome || fa.nose.isSome

/- The crop img[y : y+fh, x : x+fw], identified by its box. -/
structure Crop where
  x : Int
  y : Int
  w : Int
  h : Int
deriving DecidableEq

/- A decoded image: its dimensions and the detector output for it. -/
structure Image where
  w : Int
  h : Int
  detections : List FacialArea
deriving DecidableEq

/- utils.py lines 77-85: the edge filter condition, transliterated
   (emr is edge_margin_ratio). -/
def edgeReject (img_w img_h : Int) (emr : ℚ) (x y fw fh : Int) : Bool :=
  decide ((x : ℚ) < (img_w : ℚ) * emr) || decide ((y : ℚ) < (img_h : ℚ) * emr) ||
  decide ((img_w : ℚ) * (1 - emr) < ((x + fw : Int) : ℚ)) ||
  decide ((img_h : ℚ) * (1 - emr) < ((y + fh : Int) : ℚ))

/- utils.py lines 91-105: the profile filter.  The code computes
   eye_distance = euclidean distance of the two eyes, then
   asym = nose_to_center / eye_distance when eye_distance > 0 else 1.0,
   and skips the face iff asym > pthr (pthr is profile_threshold).
   To stay inside ℚ (no square root) the same comparison is stated on
   squares: for pthr ≥ 0 and eye_distance > 0,
   nose_to_center / eye_distance > pthr iff
   nose_to_center^2 > pthr^2 * eye_distance^2, and for pthr < 0 the
   nonnegative quotient always exceeds pthr.  Missing landmark keys
   default to [0, 0] exactly as in the code. -/
def profileReject (fa : FacialArea) (pthr : ℚ) : Bool :=
  let le := fa.left_eye.getD (0, 0)
  let re := fa.right_eye.getD (0, 0)
  let no := fa.nose.getD (0, 0)
  let eyeDistSq : ℚ := (le.1 - re.1) * (le.1 - re.1) + (le.2 - re.2) * (le.2 - re.2)
  let noseToCenter : ℚ := |(le.1 + re.1) / 2 - no.1|
  if 0 < eyeDistSq then
    if pthr < 0 then true
    else decide (pthr * pthr * eyeDistSq < noseToCenter * noseToCenter)
  else decide (pthr < 1)

/- utils.py detect_faces_and_crop, body of the per-detection loop.  For a
   detection that survives the edge filter with 0 < emr < 1 and positive
   image dimensions, the slice img[y:y+fh, x:x+fw] lies inside the image
   and holds fw*fh > 0 pixels, so the crop.size == 0 skip never fires and
   the crop is exactly the box (x, y, fw, fh).  The code then re-reads
   landmarks from the very same facial_area dict. -/
def keepDetection (img_w img_h : Int) (emr pthr : ℚ) (face : FacialArea) : Option Crop :=
  let x := face.x.getD 0
  let y := face.y.getD 0
  let fw := face.w.getD 0
  let fh := face.h.getD 0
  if fw ≤ 0 ∨ fh ≤ 0 then none
  else if edgeReject img_w img_h emr x y fw fh then none
  else
    if face.nonemptyDict then
      if profileReject face pthr then none else some ⟨x, y, fw, fh⟩
    else some ⟨x, y, fw, fh⟩

/- utils.py detect_faces_and_crop (lines 50-110): filter the detections,
   keeping original order. -/
def detect_faces_and_crop (img : Image) (emr pthr : ℚ) : List Crop :=
  img.detections.filterMap (keepDetection img.w img.h emr pthr)

/- faiss IndexFlatIP: inner product of two stored/query vectors. -/
def dot (a b : Emb) : ℚ := (List.zipWith (fun u v => u * v) a b).sum

/- index.search(emb, k=1): the maximal inner product over the entries and
   its 0-based rank, the earliest-inserted entry winning ties. -/
def searchGo (q : Emb) : List Emb → ℚ → Int → Int → ℚ × Int
  | [], best, bestIdx, _ => (best, bestIdx)
  | f :: fs, best, bestIdx, i =>
    if best < dot f q then searchGo q fs (dot f q) i (i + 1)
    else searchGo q fs best bestIdx (i + 1)

def searchBest (index : SIndex) (q : Emb) : ℚ × Int :=
  match index with
  | [] => (0, -1)
  | e :: es => searchGo q es (dot e q) 0 1

inductive PyError where
  | attributeError
deriving DecidableEq

/- services.py result dict for one face: the "saved_path" key is present
   only in the New branch. -/
structure FaceResult where
  is_returning : Bool
  similarity : ℚ
  index : Int
  saved_path : Option String
deriving DecidableEq

/- The singleton service state: the in-memory faiss index, its persisted
   copy at FAISS_INDEX_PATH, and the number of artifact files written to
   CUSTOMER_DIR so far. -/
structure SvcState where
  index : SIndex
  disk : SIndex
  nsaved : Nat
deriving DecidableEq

/- services.py lines 37-46: similarity and match index (0.0 and -1 when
   the index holds zero entries, nearest-neighbor search otherwise), and
   the decision is_match = similarity > THRESHOLD. -/
def faceDecision (index : SIndex) (emb : Emb) : ℚ × Int × Bool :=
  let si := if index.length = 0 then ((0 : ℚ), (-1 : Int)) else searchBest index emb
  (si.1, si.2, decide (THRESHOLD < si.1))

/- utils.save_new_customer_face as the repository stands: the utils module
   does not define it, so the attribute access raises AttributeError.  The
   Nat argument is the current artifact count (unused here). -/
def actual_save_new_customer_face : Nat → Except PyError String :=
  fun _ => Except.error PyError.attributeError

def save_path (n : Nat) : String :=
  CUSTOMER_DIR ++ "/customer_" ++ toString n ++ ".jpg"

/-- Modelled from the spec: the Enrollment Store operation
`saveNewFace(crop) -> path` (`save_new_customer_face` is absent from the
repository sources): it persists the crop under CUSTOMER_DIR with a
collision-resistant timestamp-derived name, modelled as the running
artifact count, and returns that path. -/
def spec_save_new_customer_face : Nat → Except PyError String :=
  fun n => Except.ok (save_path n)

/- services.py lines 37-59: one iteration of the per-face loop,
   parameterized by the binding of utils.save_new_customer_face.  In the
   New branch the artifact save runs first; only then the embedding is
   added to the index and the index is written to FAISS_INDEX_PATH. -/
def faceStep (save : Nat → Except PyError String) (st : SvcState) (emb : Emb) :
    Except PyError (FaceResult × SvcState) :=
  let d := faceDecision st.index emb
  if d.2.2 then
    Except.ok (⟨true, d.1, d.2.1, none⟩, st)
  else
    match save st.nsaved with
    | Except.error e => Except.error e
    | Except.ok p =>
      Except.ok (⟨false, d.1, d.2.1, some p⟩,
        ⟨st.index ++ [emb], st.index ++ [emb], st.nsaved + 1⟩)

/- services.py lines 33-59: the sequential per-face loop.  An exception
   aborts the call, discarding the results collected so far but keeping
   every state mutation that already happened. -/
def recognizeLoop (save : Nat → Except PyError String) :
    List Emb → SvcState → Except PyError (List FaceResult) × SvcState
  | [], st => (Except.ok [], st)
  | e :: es, st =>
    match faceStep save st e with
    | Except.error err => (Except.error err, st)
    | Except.ok (r, st1) =>
      match recognizeLoop save es st1 with
      | (Except.error err, st2) => (Except.error err, st2)
      | (Except.ok rs, st2) => (Except.ok (r :: rs), st2)

/- services.py recognize_image_path: detect and filter with the Python
   default arguments (0.005 and 0.6), embed each surviving crop through
   the external oracle embedOf, then run the per-face loop. -/
def recognize_image_path (save : Nat → Except PyError String) (embedOf : Crop → Emb)
    (img : Image) (st : SvcState) : Except PyError (List FaceResult) × SvcState :=
  recognizeLoop save ((detect_faces_and_crop img (1 / 200) (3 / 5)).map embedOf) st

/- models.py lines 8-10: RecognizeItem has exactly these two fields;
   pydantic silently drops the extra keys ("index", "saved_path") of the
   service dict when RecognizeItem(**r) is built. -/
structure RecognizeItem where
  is_returning : Bool
  similarity : ℚ
deriving DecidableEq

def toItem (r : FaceResult) : RecognizeItem := ⟨r.is_returning, r.similarity⟩

structure RecognizePerImage where
  filename : String
  num_faces : Nat
  results : List RecognizeItem
deriving DecidableEq

inductive HTTPError where
  | badRequest
deriving DecidableEq

/- An uploaded file: its filename, raw bytes, and the result of
   cv2.imdecode on those bytes (None when undecodable). -/
structure UploadFile where
  filename : String
  data : List Nat
  decoded : Option Image
deriving DecidableEq

instance : Inhabited UploadFile := ⟨⟨emptyStr, [], none⟩⟩

def zeroEntry (name : String) : RecognizePerImage := ⟨name, 0, []⟩

/- api.py recognize_batch, body of the per-file loop: a missing filename,
   an empty payload, or a failed decode yields a zero-face entry; an
   exception from the recognition service is caught and also yields a
   zero-face entry, keeping whatever state mutations already happened. -/
def processFile (save : Nat → Except PyError String) (embedOf : Crop → Emb)
    (f : UploadFile) (st : SvcState) : RecognizePerImage × SvcState :=
  if f.filename = emptyStr then (zeroEntry emptyStr, st)
  else if f.data = [] then (zeroEntry f.filename, st)
  else
    match f.decoded with
    | none => (zeroEntry f.filename, st)
    | some img =>
      match recognize_image_path save embedOf img st with
      | (Except.error _, st1) => (zeroEntry f.filename, st1)
      | (Except.ok rs, st1) => (⟨f.filename, rs.length, rs.map toItem⟩, st1)

def batchGo (save : Nat → Except PyError String) (embedOf : Crop → Emb) :
    List UploadFile → SvcState → List RecognizePerImage × SvcState
  | [], st => ([], st)
  | f :: fs, st =>
    ((processFile save embedOf f st).1 ::
        (batchGo save embedOf fs (processFile save embedOf f st).2).1,
      (batchGo save embedOf fs (processFile save embedOf f st).2).2)

def batchItems (save : Nat → Except PyError String) (embedOf : Crop → Emb)
    (files : List UploadFile) (st : SvcState) : List RecognizePerImage :=
  (batchGo save embedOf files st).1

def batchState (save : Nat → Except PyError String) (embedOf : Crop → Emb)
    (files : List UploadFile) (st : SvcState) : SvcState :=
  (batchGo save embedOf files st).2

/- api.py recognize_batch (lines 62-107): HTTP 400 on an empty file list,
   otherwise one entry per file in submission order. -/
def recognize_batch (save : Nat → Except PyError String) (embedOf : Crop → Emb)
    (files : List UploadFile) (st : SvcState) :
    Except HTTPError (List RecognizePerImage × SvcState) :=
  if files.isEmpty then Except.error HTTPError.badRequest
  else Except.ok (batchGo save embedOf files st)

/- ===== Concrete data used by the evaluations and witnesses ===== -/

/- A frontal, well-interior detection of a 1000 x 1000 image: eyes at
   (100,500) and (110,500), nose abscissa at their midpoint. -/
def frontalFA (x y w h : Int) : FacialArea :=
  ⟨some x, some y, some w, some h, some (100, 500), some (110, 500), some (105, 490)⟩

def imgOneFace : Image := ⟨1000, 1000, [frontalFA 100 500 100 100]⟩

/- A unit-length rational embedding, standing for the normalized
   DeepFace embedding of the one crop of imgOneFace. -/
def embA : Emb := [3 / 5, 4 / 5]

def eoA : Crop → Emb := fun _ => embA

def st0 : SvcState := ⟨[], [], 0⟩

def fnameA : String := "a.jpg"

def fnameB : String := "b.jpg"

def fnameX : String := "x.jpg"

def fileA : UploadFile := ⟨fnameA, [1], some imgOneFace⟩

def fileB : UploadFile := ⟨fnameB, [1], some imgOneFace⟩

def fileX : UploadFile := ⟨fnameX, [1, 2], none⟩

/- ===== Helper definitions and lemmas ===== -/

/- The result dict built in the Returning branch (services.py lines 60-66). -/
def returningResult (index : SIndex) (e : Emb) : FaceResult :=
  ⟨true, (faceDecision index e).1, (faceDecision index e).2.1, none⟩

/- Every face of the list is decided Returning against the given index:
   its decision similarity (0.0 on an empty index, the nearest-neighbor
   similarity otherwise) strictly exceeds THRESHOLD. -/
def allReturning (index : SIndex) (faces : List Emb) : Bool :=
  faces.all fun e => (faceDecision index e).2.2

lemma recognizeLoop_actual_eq (faces : List Emb) (st : SvcState) :
    recognizeLoop actual_save_new_customer_face faces st
      = (if allReturning st.index faces = true
          then Except.ok (faces.map (returningResult st.index))
          else Except.error PyError.attributeError, st) := by
  induction faces generalizing st with
  | nil => simp [recognizeLoop, allReturning]
  | cons e es ih =>
    by_cases hd : (faceDecision st.index e).2.2 = true
    · have hstep : faceStep actual_save_new_customer_face st e
          = Except.ok (returningResult st.index e, st) := by
        simp [faceStep, hd, returningResult]
      have hcons : allReturning st.index (e :: es) = allReturning st.index es := by
        simp [allReturning, List.all_cons, hd]
      simp only [recognizeLoop, hstep]
      rw [ih, hcons]
      by_cases hall : allReturning st.index es = true
      · rw [hall]
        simp
      · simp only [Bool.not_eq_true] at hall
        rw [hall]
        simp
    · have hd2 : (faceDecision st.index e).2.2 = false := by
        simpa using hd
      have hcons : allReturning st.index (e :: es) = false := by
        simp [allReturning, List.all_cons, hd2]
      have hstep : faceStep actual_save_new_customer_face st e
          = Except.error PyError.attributeError := by
        simp [faceStep, hd2, actual_save_new_customer_face]
      simp only [recognizeLoop, hstep]
      rw [hcons]
      simp

/- ===== Claim theorems ===== -/

/-- C1: the claim (with the spec) says that on a New decision
recognize_image_path persists the crop to the Enrollment Store, appends
the embedding to the index, persists the index, and reports the saved
artifact path.  The repository code cannot do this:
utils.save_new_customer_face is called but defined nowhere, so the first
New decision raises AttributeError before any enrollment side effect.
This theorem evaluates the embedded code at the failing input (an empty
index and one surviving novel face): the call errors and the state — the
in-memory index, the persisted index, and the artifact store — is
untouched. -/
theorem c1_missing_save_error :
    recognize_image_path actual_save_new_customer_face eoA imgOneFace st0
      = (Except.error PyError.attributeError, st0) := rfl

/-- C2: recognize_image_path returns a (possibly empty) result list iff
every surviving face crop is decided Returning; when some face is decided
New the call raises (AttributeError, the save function being undefined)
before appending to the index, so a successful return has only
is_returning = true results and no call — successful or not — ever
mutates the service state. -/
theorem c2_success_iff_all_returning (embedOf : Crop → Emb) (img : Image) (st : SvcState) :
    (recognize_image_path actual_save_new_customer_face embedOf img st).2 = st
    ∧ ((∃ rs, (recognize_image_path actual_save_new_customer_face embedOf img st).1
          = Except.ok rs)
        ↔ allReturning st.index ((detect_faces_and_crop img (1 / 200) (3 / 5)).map embedOf)
            = true)
    ∧ (allReturning st.index ((detect_faces_and_crop img (1 / 200) (3 / 5)).map embedOf)
          = false →
        (recognize_image_path actual_save_new_customer_face embedOf img st).1
          = Except.error PyError.attributeError)
    ∧ (∀ rs, (recognize_image_path actual_save_new_customer_face embedOf img st).1
          = Except.ok rs → ∀ r, r ∈ rs → r.is_returning = true) := by
  simp only [recognize_image_path]
  generalize (detect_faces_and_crop img (1 / 200) (3 / 5)).map embedOf = faces
  rw [recognizeLoop_actual_eq faces st]
  refine ⟨rfl, ?_, ?_, ?_⟩
  · by_cases hall : allReturning st.index faces = true
    · simp [hall]
    · simp [hall]
  · intro hfalse
    simp [hfalse]
  · intro rs hrs r hr
    by_cases hall : allReturning st.index faces = true
    · simp only [hall, if_true, Prod.fst] at hrs
      have h2 : faces.map (returningResult st.index) = rs := Except.ok.inj hrs
      subst h2
      obtain ⟨e2, _, rfl⟩ := List.mem_map.mp hr
      rfl
    · simp [hall] at hrs

/-- C2 witness: the statement of c2_success_iff_all_returning evaluated at
a concrete novel face over an empty index. -/
theorem c2_witness :
    (recognize_image_path actual_save_new_customer_face eoA imgOneFace st0).2 = st0
    ∧ ((∃ rs, (recognize_image_path actual_save_new_customer_face eoA imgOneFace st0).1
          = Except.ok rs)
        ↔ allReturning st0.index ((detect_faces_and_crop imgOneFace (1 / 200) (3 / 5)).map eoA)
            = true)
    ∧ (allReturning st0.index ((detect_faces_and_crop imgOneFace (1 / 200) (3 / 5)).map eoA)
          = false →
        (recognize_image_path actual_save_new_customer_face eoA imgOneFace st0).1
          = Except.error PyError.attributeError)
    ∧ (∀ rs, (recognize_image_path actual_save_new_customer_face eoA imgOneFace st0).1
          = Except.ok rs → ∀ r, r ∈ rs → r.is_returning = true) :=
  c2_success_iff_all_returning eoA imgOneFace st0

/-- C5: against a non-empty index, the per-face step (whatever the binding
of the artifact-save function) produces a Returning result iff the
nearest-neighbor similarity strictly exceeds THRESHOLD = 0.7, and a
similarity exactly equal to THRESHOLD takes the New branch (never a
Returning result). -/
theorem c5_decision_threshold (save : Nat → Except PyError String) (st : SvcState) (e : Emb)
    (h : st.index ≠ []) :
    THRESHOLD = 7 / 10
    ∧ ((∃ r st1, faceStep save st e = Except.ok (r, st1) ∧ r.is_returning = true)
        ↔ THRESHOLD < (searchBest st.index e).1)
    ∧ ((searchBest st.index e).1 = THRESHOLD →
        ∀ r st1, faceStep save st e = Except.ok (r, st1) → r.is_returning = false) := by
  have hlen : ¬ st.index.length = 0 := by
    simpa [List.length_eq_zero] using h
  have hdec : faceDecision st.index e
      = ((searchBest st.index e).1, (searchBest st.index e).2,
          decide (THRESHOLD < (searchBest st.index e).1)) := by
    simp [faceDecision, hlen]
  refine ⟨rfl, ?_, ?_⟩
  · constructor
    · rintro ⟨r, st1, hok, hret⟩
      by_contra hnlt
      have hd2 : (faceDecision st.index e).2.2 = false := by
        rw [hdec]
        simpa using hnlt
      cases hsave : save st.nsaved with
      | error err =>
        have hstep : faceStep save st e = Except.error err := by
          simp [faceStep, hd2, hsave]
        rw [hstep] at hok
        simp at hok
      | ok p =>
        have hstep : faceStep save st e
            = Except.ok
                (⟨false, (faceDecision st.index e).1, (faceDecision st.index e).2.1, some p⟩,
                  ⟨st.index ++ [e], st.index ++ [e], st.nsaved + 1⟩) := by
          simp [faceStep, hd2, hsave]
        rw [hstep] at hok
        injection Except.ok.inj hok with h2 h3
        rw [← h2] at hret
        simp at hret
    · intro hlt
      have hd2 : (faceDecision st.index e).2.2 = true := by
        rw [hdec]
        simpa using hlt
      exact ⟨⟨true, (faceDecision st.index e).1, (faceDecision st.index e).2.1, none⟩, st,
        by simp [faceStep, hd2], rfl⟩
  · intro heq r st1 hok
    have hd2 : (faceDecision st.index e).2.2 = false := by
      rw [hdec, heq]
      simp
    cases hsave : save st.nsaved with
    | error err =>
      have hstep : faceStep save st e = Except.error err := by
        simp [faceStep, hd2, hsave]
      rw [hstep] at hok
      simp at hok
    | ok p =>
      have hstep : faceStep save st e
          = Except.ok
              (⟨false, (faceDecision st.index e).1, (faceDecision st.index e).2.1, some p⟩,
                ⟨st.index ++ [e], st.index ++ [e], st.nsaved + 1⟩) := by
        simp [faceStep, hd2, hsave]
      rw [hstep] at hok
      injection Except.ok.inj hok with h2 h3
      rw [← h2]

/-- C5 witness: one index entry [1, 0] and a query [0.7, 0] whose
nearest-neighbor similarity is exactly the threshold: the step takes the
New branch. -/
theorem c5_witness :
    THRESHOLD = 7 / 10
    ∧ ((∃ r st1, faceStep spec_save_new_customer_face ⟨[[1, 0]], [[1, 0]], 0⟩ [7 / 10, 0]
          = Except.ok (r, st1) ∧ r.is_returning = true)
        ↔ THRESHOLD < (searchBest [[1, 0]] [7 / 10, 0]).1)
    ∧ ((searchBest [[1, 0]] [7 / 10, 0]).1 = THRESHOLD →
        ∀ r st1, faceStep spec_save_new_customer_face ⟨[[1, 0]], [[1, 0]], 0⟩ [7 / 10, 0]
            = Except.ok (r, st1) → r.is_returning = false) :=
  c5_decision_threshold spec_save_new_customer_face ⟨[[1, 0]], [[1, 0]], 0⟩ [7 / 10, 0]
    (by decide)

/-- C6: with an index of zero entries the similarity-and-decision
computation never consults the nearest-neighbor search: the decision is
New with similarity exactly 0.0 and match index -1, the same fully-shaped
triple for every embedding. -/
theorem c6_empty_index_decision :
    (∀ e : Emb, faceDecision [] e = ((0 : ℚ), (-1 : Int), false))
    ∧ ∀ e1 e2 : Emb, faceDecision [] e1 = faceDecision [] e2 :=
  ⟨fun _ => rfl, fun _ _ => rfl⟩

/-- C7: index construction fails with the index-not-found error when no
persisted file exists at the configured path (it never substitutes an
empty index), and loads exactly the persisted contents when the file
exists. -/
theorem c7_load_or_fail :
    load_or_create_index none = Except.error LoadError.indexNotFound
    ∧ ∀ idx : SIndex, load_or_create_index (some idx) = Except.ok idx :=
  ⟨rfl, fun _ => rfl⟩

/-- C3 counterexample: run on an empty index with the artifact save
modelled from the spec, so that the New branch completes.  The one New
result's "index" field is -1 — the nearest-match index produced by the
search step — not the enrolled rank 0 (the prior entry count, here 0),
and the API item built from the result dict holds only is_returning and
similarity, with no saved-path field at all. -/
theorem c3_counterexample :
    (recognize_image_path spec_save_new_customer_face eoA imgOneFace st0).1
        = Except.ok [⟨false, 0, -1, some (save_path 0)⟩]
    ∧ st0.index.length = 0
    ∧ decide ((-1 : Int) = 0) = false
    ∧ toItem ⟨false, 0, -1, some (save_path 0)⟩ = ⟨false, 0⟩ :=
  ⟨rfl, rfl, rfl, rfl⟩

/-- C3 amended: every completed New decision (artifact save modelled from
the spec) exposes its similarity, the nearest-match index of the search
(-1 when the index was empty) rather than the enrolled rank, and its
saved artifact path; the embedding is appended and persisted; and the
per-face API item keeps only isReturning and similarity, dropping the
saved path. -/
theorem c3_new_result_shape (st : SvcState) (e : Emb)
    (h : (faceDecision st.index e).2.2 = false) :
    faceStep spec_save_new_customer_face st e
      = Except.ok
          (⟨false, (faceDecision st.index e).1, (faceDecision st.index e).2.1,
              some (save_path st.nsaved)⟩,
            ⟨st.index ++ [e], st.index ++ [e], st.nsaved + 1⟩)
    ∧ toItem ⟨false, (faceDecision st.index e).1, (faceDecision st.index e).2.1,
          some (save_path st.nsaved)⟩
        = ⟨false, (faceDecision st.index e).1⟩ := by
  refine ⟨?_, rfl⟩
  simp [faceStep, h, spec_save_new_customer_face]

/-- C3 witness: the amended statement at an empty index and a concrete
embedding. -/
theorem c3_witness :
    faceStep spec_save_new_customer_face st0 embA
      = Except.ok (⟨false, 0, -1, some (save_path 0)⟩, ⟨[embA], [embA], 1⟩)
    ∧ toItem ⟨false, 0, -1, some (save_path 0)⟩ = ⟨false, 0⟩ :=
  c3_new_result_shape st0 embA rfl

/-- C4: two images of the same novel identity in one batch.  The claim
(with the spec) says the first is decided New and the second Returning
with matched rank equal to the enrolled rank.  The code raises
AttributeError inside each image's New branch (the artifact-save function
is undefined), so both batch entries come back with zero faces and the
state never changes — first conjunct.  The remaining conjuncts evaluate
the pipeline with the save modelled from the spec: there the intended
sequential behavior does hold — the first image is New (enrolled at rank
0, the prior entry count), and the second image, searched against the
index the first just mutated, is Returning with similarity 1 and matched
rank 0, equal to the first's enrolled rank. -/
theorem c4_batch_same_identity_error :
    recognize_batch actual_save_new_customer_face eoA [fileA, fileB] st0
        = Except.ok ([zeroEntry fnameA, zeroEntry fnameB], st0)
    ∧ (recognize_image_path spec_save_new_customer_face eoA imgOneFace st0).1
        = Except.ok [⟨false, 0, -1, some (save_path 0)⟩]
    ∧ (recognize_image_path spec_save_new_customer_face eoA imgOneFace
          (recognize_image_path spec_save_new_customer_face eoA imgOneFace st0).2).1
        = Except.ok [⟨true, 1, 0, none⟩] :=
  ⟨rfl, rfl, rfl⟩

/- ===== C8 helpers ===== -/

lemma processFile_spec (save : Nat → Except PyError String) (embedOf : Crop → Emb)
    (f : UploadFile) (st : SvcState) :
    (processFile save embedOf f st).1.filename
        = (if f.filename = emptyStr then emptyStr else f.filename)
    ∧ ((f.filename = emptyStr ∨ f.data = [] ∨ f.decoded = none) →
        (processFile save embedOf f st).1.num_faces = 0
        ∧ (processFile save embedOf f st).1.results = []) := by
  by_cases h1 : f.filename = emptyStr
  · simp [processFile, h1, zeroEntry]
  · by_cases h2 : f.data = []
    · simp [processFile, h1, h2, zeroEntry]
    · cases h3 : f.decoded with
      | none => simp [processFile, h1, h2, h3, zeroEntry]
      | some img =>
        rcases h4 : recognize_image_path save embedOf img st with ⟨res, st1⟩
        cases res with
        | error err => simp [processFile, h1, h2, h3, h4, zeroEntry]
        | ok rs => simp [processFile, h1, h2, h3, h4, zeroEntry]

lemma batchItems_forall2 (save : Nat → Except PyError String) (embedOf : Crop → Emb)
    (files : List UploadFile) (st : SvcState) :
    List.Forall₂
      (fun f item =>
        item.filename = (if f.filename = emptyStr then emptyStr else f.filename)
        ∧ ((f.filename = emptyStr ∨ f.data = [] ∨ f.decoded = none) →
            item.num_faces = 0 ∧ item.results = []))
      files (batchItems save embedOf files st) := by
  induction files generalizing st with
  | nil => simp [batchItems, batchGo]
  | cons f fs ih =>
    have hcons : batchItems save embedOf (f :: fs) st
        = (processFile save embedOf f st).1
            :: batchItems save embedOf fs (processFile save embedOf f st).2 := rfl
    rw [hcons]
    exact List.Forall₂.cons (processFile_spec save embedOf f st) (ih _)

lemma batchItems_getD (save : Nat → Except PyError String) (embedOf : Crop → Emb)
    (files : List UploadFile) :
    ∀ (st : SvcState) (i : Nat), i < files.length →
      (batchItems save embedOf files st).getD i (zeroEntry emptyStr)
        = (processFile save embedOf (files.getD i default)
            (batchState save embedOf (files.take i) st)).1 := by
  induction files with
  | nil =>
    intro st i h
    simp at h
  | cons f fs ih =>
    intro st i h
    cases i with
    | zero => rfl
    | succ j =>
      have hj : j < fs.length := by simpa using h
      exact ih (processFile save embedOf f st).2 j hj

/-- C8: for a nonempty batch the endpoint answers with exactly one entry
per submitted file, in submission order (the entry's filename is the
file's, or empty when the filename is missing); any per-file failure
(missing filename, empty payload, undecodable payload) yields a zero-face
empty-results entry for that file; and the i-th entry is computed from
the i-th file against the state the preceding files left behind, so no
failure stops the rest of the batch. -/
theorem c8_batch_per_file (save : Nat → Except PyError String) (embedOf : Crop → Emb)
    (files : List UploadFile) (st : SvcState) (h : files ≠ []) :
    recognize_batch save embedOf files st
        = Except.ok (batchItems save embedOf files st, batchState save embedOf files st)
    ∧ (batchItems save embedOf files st).length = files.length
    ∧ List.Forall₂
        (fun f item =>
          item.filename = (if f.filename = emptyStr then emptyStr else f.filename)
          ∧ ((f.filename = emptyStr ∨ f.data = [] ∨ f.decoded = none) →
              item.num_faces = 0 ∧ item.results = []))
        files (batchItems save embedOf files st)
    ∧ ∀ i, i < files.length →
        (batchItems save embedOf files st).getD i (zeroEntry emptyStr)
          = (processFile save embedOf (files.getD i default)
              (batchState save embedOf (files.take i) st)).1 := by
  refine ⟨?_, ?_, batchItems_forall2 save embedOf files st,
    batchItems_getD save embedOf files st⟩
  · cases files with
    | nil => exact absurd rfl h
    | cons f fs => rfl
  · exact (batchItems_forall2 save embedOf files st).length_eq.symm

/-- C8 witness: a single-file batch whose payload does not decode comes
back as one zero-face entry with the state untouched. -/
theorem c8_witness :
    recognize_batch actual_save_new_customer_face eoA [fileX] st0
      = Except.ok ([zeroEntry fnameX], st0) :=
  (c8_batch_per_file actual_save_new_customer_face eoA [fileX] st0 (List.cons_ne_nil _ _)).1

/-- C9 counterexample: image 1000 x 1000, edge margin ratio 0.005, so the
margin is exactly 5 px; the claim says a box starting at x = 5 — exactly
touching the margin — is excluded, but the filter (strict <) retains it. -/
theorem c9_counterexample :
    (1000 : ℚ) * (1 / 200) = 5
    ∧ detect_faces_and_crop ⟨1000, 1000, [frontalFA 5 500 100 100]⟩ (1 / 200) (3 / 5)
        = [⟨5, 500, 100, 100⟩] := by
  exact ⟨by decide, by decide⟩

/-- C9 amended: the filter rejects a detection only when its box crosses
strictly into the margin (x < margin, strict inequalities on all four
sides): at 1000 x 1000 with ratio 0.005 (margin 5 px) a box starting at
x = 4 is rejected, x = 6 is retained, and x = 5 — exactly touching the
margin — is retained (other coordinates safely interior). -/
theorem c9_edge_margin_behavior :
    detect_faces_and_crop ⟨1000, 1000, [frontalFA 4 500 100 100, frontalFA 6 500 100 100]⟩
        (1 / 200) (3 / 5)
      = [⟨6, 500, 100, 100⟩]
    ∧ edgeReject 1000 1000 (1 / 200) 4 500 100 100 = true
    ∧ edgeReject 1000 1000 (1 / 200) 5 500 100 100 = false
    ∧ edgeReject 1000 1000 (1 / 200) 6 500 100 100 = false := by
  exact ⟨by decide, by decide, by decide, by decide⟩

/- C10 concrete detections: interior box (100, 500, 100, 100) with eyes at
   (0,0) and (10,0) (midpoint abscissa 5, eye distance 10). -/
def boxFA (le re no : Option (ℚ × ℚ)) : FacialArea :=
  ⟨some 100, some 500, some 100, some 100, le, re, no⟩

def fa06 : FacialArea := boxFA (some (0, 0)) (some (10, 0)) (some (11, 0))

def fa061 : FacialArea := boxFA (some (0, 0)) (some (10, 0)) (some (111 / 10, 0))

def faZeroEyes : FacialArea := boxFA (some (3, 3)) (some (3, 3)) (some (5, 5))

def faNoLandmarks : FacialArea := boxFA none none none

/-- C10 counterexample: a detection with a valid, interior bounding box
but no landmark keys at all is rejected by the profile filter — the
defaults [0, 0] give eye distance 0, hence asymmetry ratio 1.0 > 0.6 —
while the claim says detections without landmark positions are not
rejected by this filter (the edge filter, shown false here, is not what
removes it). -/
theorem c10_counterexample :
    detect_faces_and_crop ⟨1000, 1000, [faNoLandmarks]⟩ (1 / 200) (3 / 5) = []
    ∧ edgeReject 1000 1000 (1 / 200) 100 500 100 100 = false
    ∧ profileReject faNoLandmarks (3 / 5) = true := by
  exact ⟨by decide, by decide, by decide⟩

/-- C10 amended: the profile filter runs for every detection whose
facial-area dict is nonempty, substituting (0, 0) for each missing
landmark; it rejects exactly when the asymmetry ratio (1.0 whenever the
eye distance is zero) strictly exceeds the threshold: ratio 0.6 at
threshold 0.6 is retained, ratio 0.61 is rejected, zero eye distance is
rejected, and a detection without landmark positions gets ratio 1.0 and
is rejected under the default threshold. -/
theorem c10_profile_behavior :
    detect_faces_and_crop ⟨1000, 1000, [fa06, fa061, faZeroEyes, faNoLandmarks]⟩
        (1 / 200) (3 / 5)
      = [⟨100, 500, 100, 100⟩]
    ∧ profileReject fa06 (3 / 5) = false
    ∧ profileReject fa061 (3 / 5) = true
    ∧ profileReject faZeroEyes (3 / 5) = true
    ∧ profileReject faNoLandmarks (3 / 5) = true := by
  exact ⟨by decide, by decide, by decide, by decide, by decide⟩

end RVN
